import Mathlib

/-!
# Verification of the supershot football-prediction core

Shallow embedding of the statistical core of the `profdue/supershot`
repository, together with theorems settling the frozen claims about it.

Modules embedded (translated from the Python source):
* `value_calculator.py` (`ValueCalculator`) — exact rational arithmetic (`ℚ`),
  Python `round(x, 4)` modelled by `pyRound4` (Mathlib `round` rounds ties up
  while Python rounds ties to even; no value appearing in the claims sits on a
  tie, so the models agree on every input used here).
* `confidence_calculator.py` (`ConfidenceCalculator`) — rational arithmetic.
* `engine.py` (`validate_team_selection`, `predict_match_enhanced` gate,
  `calculate_goal_expectancy`) and `injury_module.py` (`InjuryAnalyzer`).
* `poisson_calculator.py` and `enhanced_predictor.py` Poisson grids — real
  arithmetic with the exact Poisson mass function `ppmf`.
-/

open Finset

/- ===================================================================
   Definitions
   =================================================================== -/

/-- Python `round(x, 4)`: round to four decimal places. -/
def pyRound4 (x : ℚ) : ℚ := (round (x * 10000) : ℤ) / 10000

/-- The record returned by `ValueCalculator.calculate_true_value` /
`ValueCalculator._invalid_output` (`value_calculator.py`). -/
structure ValueRecord where
  ev : ℚ
  kelly_fraction : ℚ
  value_ratio : ℚ
  rating : String
  implied_prob : ℚ
  model_prob : ℚ
deriving DecidableEq, Repr

/-- `ValueCalculator._invalid_output` (`value_calculator.py` lines 71–80).
`odds = none` models Python `odds=None`; `not odds` is falsy for `None`
and for `0`, which the `odds <= 0` test subsumes. -/
def _invalid_output (probability : ℚ) (odds : Option ℚ) (reason : String) : ValueRecord :=
  { ev := -1
    kelly_fraction := 0
    value_ratio := 0
    rating := reason
    implied_prob := match odds with
      | none => 0
      | some o => if o ≤ 0 then 0 else pyRound4 (1 / o)
    model_prob := pyRound4 probability }

/-- `ValueCalculator._get_value_rating` (`value_calculator.py` lines 64–69),
with the thresholds of `self.value_thresholds`; the `"poor"` tier
(`ev ≥ 0, ratio ≥ 1`) is unreachable before the final `return "poor"`. -/
def _get_value_rating (ev vr : ℚ) : String :=
  if 0.08 ≤ ev ∧ 1.12 ≤ vr then "excellent"
  else if 0.04 ≤ ev ∧ 1.06 ≤ vr then "good"
  else if 0.01 ≤ ev ∧ 1.02 ≤ vr then "fair"
  else "poor"

/-- `ValueCalculator.calculate_true_value` (`value_calculator.py` lines 12–44). -/
def calculate_true_value (probability odds : ℚ) : ValueRecord :=
  if ¬(0 ≤ probability ∧ probability ≤ 1) then
    _invalid_output probability (some odds) "invalid_probability"
  else if odds ≤ 1 then
    _invalid_output probability (some odds) "invalid_odds"
  else
    let ev := probability * (odds - 1) - (1 - probability)
    let kelly_fraction := if 1 < probability * odds then
        (probability * odds - 1) / (odds - 1)
      else 0
    let vr := probability * odds
    { ev := pyRound4 ev
      kelly_fraction := pyRound4 (max 0 kelly_fraction)
      value_ratio := pyRound4 vr
      rating := _get_value_rating ev vr
      implied_prob := pyRound4 (1 / odds)
      model_prob := pyRound4 probability }

/-- One entry of `ValueCalculator.calculate_value_bets`
(`value_calculator.py` lines 47–61): a market whose odds are missing gets the
`"missing_odds"` invalid record, otherwise `calculate_true_value` runs. -/
def calculate_value_bets_entry (prob : ℚ) (odds : Option ℚ) : ValueRecord :=
  match odds with
  | none => _invalid_output prob none "missing_odds"
  | some o => calculate_true_value prob o

/-- Venue side of the team whose win confidence is being scored
(`side` argument of `ConfidenceCalculator._calculate_win_confidence`). -/
inductive Side where
  | home
  | away
deriving DecidableEq, Repr

/-- The three outcome keys of the probability/confidence dictionaries
(`home_win`, `draw`, `away_win`). -/
inductive Outcome where
  | home_win
  | draw
  | away_win
deriving DecidableEq, Repr

/-- The three keys of the `all_probs` dictionary inside
`_calculate_win_confidence` (`'home'`, `'away'`, `'draw'`). -/
inductive PredLabel where
  | home
  | away
  | draw
deriving DecidableEq, Repr

/-- `base_quality` sub-record of the comprehensive team data
(`engine.py` `DataIntegrator`): Elo rating and structural tier string. -/
structure BaseQuality where
  elo : ℚ
  structural_tier : String
deriving DecidableEq, Repr

/-- `home_advantage` sub-record: the strength label. -/
structure HomeAdvData where
  strength : String
deriving DecidableEq, Repr

/-- The fields of the comprehensive team-data dictionary consumed by
`ConfidenceCalculator` (`confidence_calculator.py`). -/
structure TeamData where
  matches_played : ℚ
  clean_sheet_pct : ℚ
  btts_pct : ℚ
  home_advantage : HomeAdvData
  base_quality : BaseQuality
deriving DecidableEq, Repr

/-- The fields of the `inputs` dictionary consumed by
`ConfidenceCalculator._calculate_context_confidence`. -/
structure MatchInputs where
  home_injuries : String
  away_injuries : String
  home_rest : ℚ
  away_rest : ℚ
deriving DecidableEq, Repr

/-- `ConfidenceCalculator._calculate_team_consistency`
(`confidence_calculator.py` lines 181–187). -/
def _calculate_team_consistency (td : TeamData) : ℚ :=
  (td.clean_sheet_pct / 100 + (1 - |td.btts_pct - 50| / 50)) / 2

/-- The `injury_impact` lookup of
`ConfidenceCalculator._calculate_injury_stability`, with the Python
`.get(label, 0.8)` default. -/
def injury_impact_lookup (s : String) : ℚ :=
  if s = "None" then 1.0
  else if s = "Minor" then 0.9
  else if s = "Moderate" then 0.75
  else if s = "Significant" then 0.6
  else if s = "Crisis" then 0.4
  else 0.8

/-- `ConfidenceCalculator._calculate_injury_stability`
(`confidence_calculator.py` lines 189–202). -/
def _calculate_injury_stability (hi ai : String) : ℚ :=
  (injury_impact_lookup hi + injury_impact_lookup ai) / 2

/-- `ConfidenceCalculator._calculate_rest_balance`
(`confidence_calculator.py` lines 204–212). -/
def _calculate_rest_balance (hr ar : ℚ) : ℚ :=
  if |hr - ar| ≤ 2 then 1.0
  else if |hr - ar| ≤ 4 then 0.8
  else 0.6

/-- `ConfidenceCalculator._calculate_home_advantage_consistency`
(`confidence_calculator.py` lines 214–222). -/
def _calculate_home_advantage_consistency (td : TeamData) : ℚ :=
  if td.home_advantage.strength = "strong" then 0.95
  else if td.home_advantage.strength = "moderate" then 0.85
  else 0.7

/-- `ConfidenceCalculator._calculate_context_confidence`
(`confidence_calculator.py` lines 62–99), with the weights of
`self.confidence_weights`; returns the clamped weighted score (the `factors`
dictionary is not modelled separately). -/
def _calculate_context_confidence (hd ad : TeamData) (inp : MatchInputs) : ℚ :=
  let data_quality := min (min (max 1 hd.matches_played / 5) (max 1 ad.matches_played / 5)) 1
  let predictability := (_calculate_team_consistency hd + _calculate_team_consistency ad) / 2
  let injury_stability := _calculate_injury_stability inp.home_injuries inp.away_injuries
  let rest_balance := _calculate_rest_balance inp.home_rest inp.away_rest
  let hac := _calculate_home_advantage_consistency hd
  min 95 (max 40 ((data_quality * 0.18 + predictability * 0.18 + injury_stability * 0.22 +
    rest_balance * 0.12 + hac * 0.30) * 100))

/-- The probability-tiered base confidence of
`ConfidenceCalculator._calculate_win_confidence`
(`confidence_calculator.py` lines 107–120). -/
def win_base_confidence (p : ℚ) : ℚ :=
  if 0.70 ≤ p then 78 + (p - 0.70) * 40
  else if 0.60 ≤ p then 72 + (p - 0.60) * 60
  else if 0.50 ≤ p then 65 + (p - 0.50) * 70
  else if 0.40 ≤ p then 58 + (p - 0.40) * 70
  else if 0.30 ≤ p then 50 + (p - 0.30) * 80
  else if 0.20 ≤ p then 42 + (p - 0.20) * 80
  else 35 + p * 350

/-- `max(all_probs, key=all_probs.get)` inside `_calculate_win_confidence`
(lines 124–130): the first key among `home, away, draw` with maximal value,
where the draw entry is `1 − (ph + pa)`. -/
def predicted_winner (ph pa : ℚ) : PredLabel :=
  let pd := 1 - (ph + pa)
  if pa ≤ ph ∧ pd ≤ ph then PredLabel.home
  else if pd ≤ pa then PredLabel.away
  else PredLabel.draw

/-- `ConfidenceCalculator._calculate_win_confidence`
(`confidence_calculator.py` lines 101–152).  `ph`/`pa` are the
`current_probability` values stored on the home/away team data by
`calculate_outcome_specific_confidence` before the call. -/
def _calculate_win_confidence (win_probability context_confidence : ℚ)
    (team_tier opp_tier : String) (ph pa : ℚ) (side : Side) : ℚ :=
  let base0 := win_base_confidence win_probability
  let pw := predicted_winner ph pa
  let is_predicted := (side = Side.home ∧ pw = PredLabel.home) ∨
    (side = Side.away ∧ pw = PredLabel.away)
  let base1 := if is_predicted ∧ 0.35 < win_probability then base0 + 8 else base0
  let base2 := if team_tier = "elite" ∧ opp_tier ≠ "elite" ∧ 0.45 < win_probability ∧ base1 < 60
    then max base1 65 else base1
  min 85 (max 35 (0.8 * base2 + 0.2 * context_confidence))

/-- `ConfidenceCalculator._calculate_draw_confidence`
(`confidence_calculator.py` lines 154–179). -/
def _calculate_draw_confidence (draw_probability context_confidence : ℚ)
    (home_elo away_elo : ℚ) : ℚ :=
  let base0 :=
    if 0.35 ≤ draw_probability then 55 + (draw_probability - 0.35) * 28
    else if 0.25 ≤ draw_probability then 48 + (draw_probability - 0.25) * 70
    else if 0.15 ≤ draw_probability then 40 + (draw_probability - 0.15) * 80
    else 30 + draw_probability * 67
  let base1 := base0 * 0.9
  let elo_diff := |home_elo - away_elo|
  let base2 := if elo_diff < 100 then base1 + 5
    else if 250 < elo_diff then base1 - 8
    else base1
  min 70 (max 25 (0.85 * base2 + 0.15 * context_confidence))

/-- Probability dictionary lookup by outcome key. -/
def outcome_prob (ph pd pa : ℚ) : Outcome → ℚ
  | Outcome.home_win => ph
  | Outcome.draw => pd
  | Outcome.away_win => pa

/-- Lines 49–50 of `calculate_outcome_specific_confidence`: the first key of
the `probabilities` dictionary (insertion order `home_win, draw, away_win`)
whose value equals `max_prob`. -/
def predicted_outcome (ph pd pa : ℚ) : Outcome :=
  let mx := max ph (max pa pd)
  if ph = mx then Outcome.home_win
  else if pd = mx then Outcome.draw
  else Outcome.away_win

/-- The sanity-fix post-processing of `calculate_outcome_specific_confidence`
(`confidence_calculator.py` lines 48–58): if the predicted outcome does not
hold the highest confidence, its confidence is overwritten with
`max_confidence + 2`. -/
def confidence_sanity_fix (conf : Outcome → ℚ) (pred : Outcome) : Outcome → ℚ :=
  let max_conf := max (conf Outcome.home_win) (max (conf Outcome.draw) (conf Outcome.away_win))
  fun o => if o = pred ∧ conf pred < max_conf then max_conf + 2 else conf o

/-- `ConfidenceCalculator.calculate_outcome_specific_confidence`
(`confidence_calculator.py` lines 17–60); probabilities are passed as the
triple `(ph, pd, pa)` and the returned dictionary as a function on
`Outcome` (the `factors` part of the return value is not modelled). -/
def calculate_outcome_specific_confidence (ph pd pa : ℚ) (hd ad : TeamData)
    (inp : MatchInputs) : Outcome → ℚ :=
  let ctx := _calculate_context_confidence hd ad inp
  let hc := _calculate_win_confidence ph ctx hd.base_quality.structural_tier
    ad.base_quality.structural_tier ph pa Side.home
  let ac := _calculate_win_confidence pa ctx ad.base_quality.structural_tier
    hd.base_quality.structural_tier ph pa Side.away
  let dc := _calculate_draw_confidence pd ctx hd.base_quality.elo ad.base_quality.elo
  confidence_sanity_fix
    (fun o => match o with
      | Outcome.home_win => hc
      | Outcome.draw => dc
      | Outcome.away_win => ac)
    (predicted_outcome ph pd pa)

/-- `attack_mult` column of `InjuryAnalyzer.injury_weights`
(`injury_module.py` lines 5–51), with the `.get(level, weights["None"])`
default. -/
def attack_mult (s : String) : ℝ :=
  if s = "None" then 1.00
  else if s = "Minor" then 0.95
  else if s = "Moderate" then 0.90
  else if s = "Significant" then 0.85
  else if s = "Crisis" then 0.75
  else 1.00

/-- `defense_mult` column of `InjuryAnalyzer.injury_weights`. -/
def defense_mult (s : String) : ℝ :=
  if s = "None" then 1.00
  else if s = "Minor" then 0.94
  else if s = "Moderate" then 0.87
  else if s = "Significant" then 0.82
  else if s = "Crisis" then 0.72
  else 1.00

/-- `InjuryAnalyzer.fatigue_multipliers` (`injury_module.py` lines 54–58),
with the `.get(rest_days, 1.0)` default. -/
def fatigue_mult (rest_days : ℤ) : ℝ :=
  if rest_days = 2 then 0.85
  else if rest_days = 3 then 0.88
  else if rest_days = 4 then 0.91
  else if rest_days = 5 then 0.94
  else if rest_days = 6 then 0.96
  else if rest_days = 7 then 0.98
  else if rest_days = 8 then 1.00
  else if rest_days = 9 then 1.01
  else if rest_days = 10 then 1.02
  else if rest_days = 11 then 1.03
  else if rest_days = 12 then 1.03
  else if rest_days = 13 then 1.03
  else if rest_days = 14 then 1.03
  else 1.0

/-- `InjuryAnalyzer.apply_injury_impact` (`injury_module.py` lines 60–86):
returns `(xg_modified, xga_modified)` with the `0.3` floors. -/
def apply_injury_impact (xg_for xg_against : ℝ) (injury_level : String)
    (rest_days : ℤ) (form_trend : ℝ) : ℝ × ℝ :=
  let am := attack_mult injury_level
  let dm := defense_mult injury_level
  let fm := fatigue_mult rest_days
  let fo := 1 + form_trend * 0.2
  (max 0.3 (xg_for * am * fm * fo), max 0.3 (xg_against * (2 - dm) * fm * fo))

/-- `DataIntegrator._get_league_avg_xg` (`engine.py` lines 158–168);
`_get_league_avg_xga` returns the same value. -/
def _get_league_avg_xg (league : String) : ℝ :=
  if league = "Premier League" then 1.45
  else if league = "La Liga" then 1.38
  else if league = "Bundesliga" then 1.52
  else if league = "Serie A" then 1.42
  else if league = "Ligue 1" then 1.40
  else if league = "RFPL" then 1.35
  else 1.40

/-- `ProfessionalPredictionEngine.calculate_goal_expectancy`
(`engine.py` lines 359–401), parametrised over the per-team values the engine
reads from the integrated database: per-match xG/xGA, form trends, attack
strengths, the home team's `goals_boost` and the away team's own
`goals_boost` (the code applies `-0.5 ×` the latter as `away_penalty`). -/
noncomputable def calculate_goal_expectancy (home_xg home_xga away_xg away_xga : ℝ)
    (home_injuries away_injuries : String) (home_rest away_rest : ℤ)
    (home_form away_form : ℝ) (home_attack_strength away_attack_strength : ℝ)
    (home_goals_boost away_goals_boost : ℝ) (league : String) : ℝ × ℝ :=
  let home_adj := apply_injury_impact home_xg home_xga home_injuries home_rest home_form
  let away_adj := apply_injury_impact away_xg away_xga away_injuries away_rest away_form
  let league_avg_xga := _get_league_avg_xg league
  let home_goal_exp := home_adj.1 * (away_adj.2 / league_avg_xga) ^ (0.7 : ℝ) *
      home_attack_strength ^ (0.3 : ℝ) + home_goals_boost
  let away_goal_exp := away_adj.1 * (home_adj.2 / league_avg_xga) ^ (0.7 : ℝ) *
      away_attack_strength ^ (0.3 : ℝ) + (-away_goals_boost * 0.5)
  (max 0.1 home_goal_exp, max 0.1 away_goal_exp)

/-- The two fields of the comprehensive team data used by
`ProfessionalPredictionEngine.validate_team_selection`. -/
structure EngineTeamData where
  base_name : String
  league : String
deriving DecidableEq, Repr

/-- The odds quartet of the `inputs` dictionary of
`ProfessionalPredictionEngine.predict_match_enhanced`. -/
structure EngineInputs where
  home_odds : ℚ
  draw_odds : ℚ
  away_odds : ℚ
  over_odds : ℚ
deriving DecidableEq, Repr

/-- `ProfessionalPredictionEngine.validate_team_selection`
(`engine.py` lines 314–325): only the same-team and the league-mismatch
checks exist; odds are not validated here. -/
def validate_team_selection (home_data away_data : EngineTeamData) : List String :=
  (if home_data.base_name = away_data.base_name
    then ["Cannot select the same team for both home and away"] else []) ++
  (if home_data.league ≠ away_data.league
    then ["Teams must be from the same league. " ++ home_data.base_name ++ " is in " ++
      home_data.league ++ ", " ++ away_data.base_name ++ " is in " ++ away_data.league]
    else [])

/-- The validation gate of `ProfessionalPredictionEngine.predict_match_enhanced`
(`engine.py` lines 520–525): the method returns `(None, validation_errors, [])`
exactly when `validate_team_selection` is non-empty, and otherwise proceeds to
build a full result; the odds fields of `inputs` are not consulted at this
stage. -/
def predict_match_produces_result (inputs : EngineInputs)
    (home_data away_data : EngineTeamData) : Bool :=
  (validate_team_selection home_data away_data).isEmpty

/-- `scipy.stats.poisson.pmf(i, lam)`: the Poisson probability mass
`e^{−λ} λ^i / i!`. -/
noncomputable def ppmf (lam : ℝ) (i : ℕ) : ℝ :=
  Real.exp (-lam) * lam ^ i / (Nat.factorial i : ℝ)

/-- The home-win bucket of an `n × n` Poisson grid: cells with `i > j`
(`home_probs[i] * away_probs[j]` accumulated when `i > j`). -/
noncomputable def bucketHW (n : ℕ) (f g : ℕ → ℝ) : ℝ :=
  ∑ i in range n, ∑ j in range n, if j < i then f i * g j else 0

/-- The draw bucket: cells with `i = j`. -/
noncomputable def bucketDR (n : ℕ) (f g : ℕ → ℝ) : ℝ :=
  ∑ i in range n, ∑ j in range n, if i = j then f i * g j else 0

/-- The away-win bucket: cells with `i < j`. -/
noncomputable def bucketAW (n : ℕ) (f g : ℕ → ℝ) : ℝ :=
  ∑ i in range n, ∑ j in range n, if i < j then f i * g j else 0

/-- Home-win accumulation of `PoissonCalculator.calculate_poisson_probabilities`
(`poisson_calculator.py` lines 8–34): goal counts `0 .. max_goals − 1` with
`max_goals = 8`. -/
noncomputable def pc_home_win (lh la : ℝ) : ℝ := bucketHW 8 (ppmf lh) (ppmf la)

/-- Draw accumulation of `calculate_poisson_probabilities`. -/
noncomputable def pc_draw (lh la : ℝ) : ℝ := bucketDR 8 (ppmf lh) (ppmf la)

/-- Away-win accumulation of `calculate_poisson_probabilities`. -/
noncomputable def pc_away_win (lh la : ℝ) : ℝ := bucketAW 8 (ppmf lh) (ppmf la)

/-- `total = home_win + draw + away_win` of `calculate_poisson_probabilities`. -/
noncomputable def pc_total (lh la : ℝ) : ℝ :=
  pc_home_win lh la + pc_draw lh la + pc_away_win lh la

/-- `PoissonCalculator.calculate_poisson_probabilities` outcome triple
(`poisson_calculator.py` lines 8–34): the three buckets, divided by their
total when it is positive (the over/under fields are not needed here). -/
noncomputable def calculate_poisson_probabilities (lh la : ℝ) : ℝ × ℝ × ℝ :=
  if 0 < pc_total lh la then
    (pc_home_win lh la / pc_total lh la, pc_draw lh la / pc_total lh la,
      pc_away_win lh la / pc_total lh la)
  else (pc_home_win lh la, pc_draw lh la, pc_away_win lh la)

/-- `EnhancedPredictor._normalize_triple` (`enhanced_predictor.py` lines
503–511): clip at zero, return the uniform triple when the sum is
non-positive, otherwise divide by the sum. -/
noncomputable def _normalize_triple (a b c : ℝ) : ℝ × ℝ × ℝ :=
  if max a 0 + max b 0 + max c 0 ≤ 0 then (1 / 3, 1 / 3, 1 / 3)
  else (max a 0 / (max a 0 + max b 0 + max c 0),
    max b 0 / (max a 0 + max b 0 + max c 0),
    max c 0 / (max a 0 + max b 0 + max c 0))

/-- Home-win grid accumulation of
`EnhancedPredictor._calculate_poisson_match_probs` (`enhanced_predictor.py`
lines 377–407): goal counts `0 .. max_goals` with `max_goals = 8`, i.e. a
`9 × 9` grid. -/
noncomputable def ep_home_win (lh la : ℝ) : ℝ := bucketHW 9 (ppmf lh) (ppmf la)

/-- Draw grid accumulation of `_calculate_poisson_match_probs`. -/
noncomputable def ep_draw (lh la : ℝ) : ℝ := bucketDR 9 (ppmf lh) (ppmf la)

/-- Away-win grid accumulation of `_calculate_poisson_match_probs`. -/
noncomputable def ep_away_win (lh la : ℝ) : ℝ := bucketAW 9 (ppmf lh) (ppmf la)

/-- One side's tail mass `1 − sum(pmf)` of `_calculate_poisson_match_probs`. -/
noncomputable def ep_tail (lam : ℝ) : ℝ := 1 - ∑ i in range 9, ppmf lam i

/-- `tail_mass = home_tail * away_tail` of `_calculate_poisson_match_probs`. -/
noncomputable def ep_tail_mass (lh la : ℝ) : ℝ := ep_tail lh * ep_tail la

/-- `EnhancedPredictor._calculate_poisson_match_probs` (`enhanced_predictor.py`
lines 377–407): grid buckets, then `tail_mass * 0.5` added to each of the
home-win and away-win buckets, then `_normalize_triple`. -/
noncomputable def _calculate_poisson_match_probs (lh la : ℝ) : ℝ × ℝ × ℝ :=
  _normalize_triple (ep_home_win lh la + ep_tail_mass lh la * 0.5) (ep_draw lh la)
    (ep_away_win lh la + ep_tail_mass lh la * 0.5)

/-- `EnhancedPredictor._calculate_elo_probabilities` (`enhanced_predictor.py`
lines 320–350). -/
noncomputable def _calculate_elo_probabilities (home_elo away_elo : ℝ) : ℝ × ℝ × ℝ :=
  let elo_diff := (home_elo - away_elo) + 80
  let home_win_raw := 1 / (1 + (10 : ℝ) ^ (-elo_diff / 400))
  let closeness := max 0 (1 - |elo_diff| / 600)
  let draw_prob := 0.20 * (0.6 + 0.4 * closeness)
  let remaining := 1 - draw_prob
  let away_win_raw := 1 - home_win_raw
  let denom := home_win_raw + away_win_raw
  if denom ≤ 0 then _normalize_triple (remaining / 2) draw_prob (remaining / 2)
  else _normalize_triple (remaining * (home_win_raw / denom)) draw_prob
    (remaining * (away_win_raw / denom))

/-- Steps 4–7 of `EnhancedPredictor.predict_winner_enhanced`
(`enhanced_predictor.py` lines 85–104), parametrised over the final goal
expectancies and the two Elo ratings: the Poisson grid triple and the Elo
triple blended with weights `0.60 / 0.40`, then `_normalize_triple`. -/
noncomputable def predict_winner_probs (lh la home_elo away_elo : ℝ) : ℝ × ℝ × ℝ :=
  let p := _calculate_poisson_match_probs lh la
  let e := _calculate_elo_probabilities home_elo away_elo
  _normalize_triple (0.60 * p.1 + 0.40 * e.1) (0.60 * p.2.1 + 0.40 * e.2.1)
    (0.60 * p.2.2 + 0.40 * e.2.2)

/-- The tail redistribution as claim C3 words it (its refinement reading of
the spec): the residual mass beyond the grid is split between the home-win
and away-win buckets in proportion to their accumulated masses, the draw
bucket untouched, so that the total becomes 1. -/
noncomputable def spec_tail_redistribution (lh la : ℝ) : ℝ × ℝ × ℝ :=
  let hw := ep_home_win lh la
  let dr := ep_draw lh la
  let aw := ep_away_win lh la
  let resid := 1 - (hw + dr + aw)
  (hw + resid * (hw / (hw + aw)), dr, aw + resid * (aw / (hw + aw)))

/- ===================================================================
   Theorems
   =================================================================== -/

theorem pyRound4_zero : pyRound4 0 = 0 := by
  simp [pyRound4]

theorem pyRound4_eval (x : ℚ) (n : ℤ) (h : x * 10000 = (n : ℚ)) : pyRound4 x = n / 10000 := by
  rw [pyRound4, h, round_intCast]

theorem calculate_true_value_valid (p o : ℚ) (hp0 : 0 ≤ p) (hp1 : p ≤ 1) (ho : 1 < o) :
    calculate_true_value p o =
      { ev := pyRound4 (p * (o - 1) - (1 - p))
        kelly_fraction := pyRound4 (max 0 (if 1 < p * o then (p * o - 1) / (o - 1) else 0))
        value_ratio := pyRound4 (p * o)
        rating := _get_value_rating (p * (o - 1) - (1 - p)) (p * o)
        implied_prob := pyRound4 (1 / o)
        model_prob := pyRound4 p } := by
  unfold calculate_true_value
  rw [if_neg (not_not.mpr ⟨hp0, hp1⟩), if_neg (not_le.mpr ho)]

theorem calculate_true_value_badp (p o : ℚ) (hp : ¬(0 ≤ p ∧ p ≤ 1)) :
    calculate_true_value p o = _invalid_output p (some o) "invalid_probability" := by
  unfold calculate_true_value
  rw [if_pos hp]

theorem calculate_true_value_lowodds (p o : ℚ) (hp0 : 0 ≤ p) (hp1 : p ≤ 1) (ho : o ≤ 1) :
    calculate_true_value p o = _invalid_output p (some o) "invalid_odds" := by
  unfold calculate_true_value
  rw [if_neg (not_not.mpr ⟨hp0, hp1⟩), if_pos ho]

theorem pyRound4_le_one {x : ℚ} (hx : x ≤ 1) : pyRound4 x ≤ 1 := by
  have h1 : x * 10000 ≤ 10000 := by nlinarith
  have h2 : round (x * 10000) ≤ round (10000 : ℚ) := by
    rw [round_eq, round_eq]
    exact Int.floor_le_floor (by linarith)
  have h3 : round (10000 : ℚ) = 10000 := by
    have : ((10000 : ℤ) : ℚ) = (10000 : ℚ) := by norm_num
    calc round (10000 : ℚ) = round (((10000 : ℤ) : ℚ)) := by rw [this]
    _ = 10000 := round_intCast 10000
  rw [pyRound4]
  rw [div_le_one (by norm_num)]
  have : (round (x * 10000) : ℚ) ≤ ((10000 : ℤ) : ℚ) := by
    exact_mod_cast le_trans h2 (le_of_eq h3)
  simpa using this

/-- C2, counterexample: at `p = 1`, `o = 2` the returned `kelly_fraction` is the
raw Kelly value `1`, strictly above the claimed fixed maximum stake `0.02`, so
no `0.25×` fractional multiplier or `0.02` cap is applied. -/
theorem c2_counterexample : (0.02 : ℚ) < (calculate_true_value 1 2).kelly_fraction := by
  rw [calculate_true_value_valid 1 2 (by norm_num) (by norm_num) (by norm_num)]
  have h1 : ((1 : ℚ) * 2 - 1) / (2 - 1) = 1 := by norm_num
  rw [if_pos (by norm_num : (1 : ℚ) < 1 * 2), h1, max_eq_right (by norm_num : (0 : ℚ) ≤ 1),
    pyRound4_eval 1 10000 (by norm_num)]
  norm_num

/-- C2, amended: for every valid input (`0 ≤ p ≤ 1`, `o > 1`) the returned
`kelly_fraction` is the raw Kelly value `(p·o − 1)/(o − 1)` — rounded to four
decimals, clamped below at `0`, with no fractional multiplier and no maximum
stake cap — and it is therefore bounded by `1`, not by `0.02`. -/
theorem c2_kelly_uncapped (p o : ℚ) (hp0 : 0 ≤ p) (hp1 : p ≤ 1) (ho : 1 < o) :
    (calculate_true_value p o).kelly_fraction ≤ 1 ∧
    (1 < p * o → (calculate_true_value p o).kelly_fraction = pyRound4 ((p * o - 1) / (o - 1))) ∧
    (p * o ≤ 1 → (calculate_true_value p o).kelly_fraction = 0) := by
  rw [calculate_true_value_valid p o hp0 hp1 ho]
  refine ⟨?_, ?_, ?_⟩
  · by_cases hk : 1 < p * o
    · have hraw : (p * o - 1) / (o - 1) ≤ 1 := by
        rw [div_le_one (by linarith)]
        nlinarith
      have hmax : max 0 (if 1 < p * o then (p * o - 1) / (o - 1) else 0) ≤ 1 := by
        rw [if_pos hk]
        exact max_le (by norm_num) hraw
      exact pyRound4_le_one hmax
    · show pyRound4 (max 0 (if 1 < p * o then (p * o - 1) / (o - 1) else 0)) ≤ 1
      rw [if_neg hk, max_eq_left le_rfl, pyRound4_zero]
      norm_num
  · intro hk
    have hraw0 : 0 ≤ (p * o - 1) / (o - 1) := by
      apply div_nonneg <;> linarith
    show pyRound4 (max 0 (if 1 < p * o then (p * o - 1) / (o - 1) else 0)) = _
    rw [if_pos hk, max_eq_right hraw0]
  · intro hk
    have hk' : ¬ 1 < p * o := not_lt.mpr hk
    show pyRound4 (max 0 (if 1 < p * o then (p * o - 1) / (o - 1) else 0)) = 0
    rw [if_neg hk', max_eq_left le_rfl, pyRound4_zero]

/-- Witness for `c2_kelly_uncapped` at `p = 0.6`, `o = 2`. -/
theorem c2_kelly_uncapped_witness :
    (calculate_true_value 0.6 2).kelly_fraction ≤ 1 ∧
    (calculate_true_value 0.6 2).kelly_fraction = pyRound4 ((0.6 * 2 - 1) / (2 - 1)) := by
  refine ⟨(c2_kelly_uncapped 0.6 2 (by norm_num) (by norm_num) (by norm_num)).1, ?_⟩
  exact (c2_kelly_uncapped 0.6 2 (by norm_num) (by norm_num) (by norm_num)).2.1 (by norm_num)

/-- C6: (a) for every probability `p` and odds `o ≤ 1.0` the result is the
invalid record with `ev = -1` and `kelly_fraction = 0`; (b) for every valid
input with `p·o ≤ 1` the returned `kelly_fraction` is `0`; (c) at
`p = 0.55`, `o = 2.0` the returned `ev` is `0.10` and the raw Kelly value
`(0.55·2 − 1)/(2 − 1)` (which is what is returned) is `0.10`. -/
theorem c6_invalid_and_kelly_zero :
    (∀ p o : ℚ, o ≤ 1 →
      (calculate_true_value p o).ev = -1 ∧
      (calculate_true_value p o).kelly_fraction = 0 ∧
      ((calculate_true_value p o).rating = "invalid_odds" ∨
       (calculate_true_value p o).rating = "invalid_probability")) ∧
    (∀ p o : ℚ, 0 ≤ p → p ≤ 1 → 1 < o → p * o ≤ 1 →
      (calculate_true_value p o).kelly_fraction = 0) ∧
    ((calculate_true_value 0.55 2).ev = 0.1 ∧
      ((0.55 : ℚ) * 2 - 1) / (2 - 1) = 0.1 ∧
      (calculate_true_value 0.55 2).kelly_fraction = 0.1) := by
  refine ⟨?_, ?_, ?_, by norm_num, ?_⟩
  · intro p o ho
    by_cases hp : 0 ≤ p ∧ p ≤ 1
    · rw [calculate_true_value_lowodds p o hp.1 hp.2 ho]
      exact ⟨rfl, rfl, Or.inl rfl⟩
    · rw [calculate_true_value_badp p o hp]
      exact ⟨rfl, rfl, Or.inr rfl⟩
  · intro p o hp0 hp1 ho hpo
    have hk' : ¬ 1 < p * o := not_lt.mpr hpo
    rw [calculate_true_value_valid p o hp0 hp1 ho]
    show pyRound4 (max 0 (if 1 < p * o then (p * o - 1) / (o - 1) else 0)) = 0
    rw [if_neg hk', max_eq_left le_rfl, pyRound4_zero]
  · rw [calculate_true_value_valid 0.55 2 (by norm_num) (by norm_num) (by norm_num)]
    show pyRound4 ((0.55 : ℚ) * (2 - 1) - (1 - 0.55)) = 0.1
    rw [pyRound4_eval _ 1000 (by norm_num)]
    norm_num
  · rw [calculate_true_value_valid 0.55 2 (by norm_num) (by norm_num) (by norm_num)]
    show pyRound4 (max 0 (if (1 : ℚ) < 0.55 * 2 then ((0.55 : ℚ) * 2 - 1) / (2 - 1) else 0)) = 0.1
    rw [if_pos (by norm_num : (1 : ℚ) < 0.55 * 2),
      (by norm_num : ((0.55 : ℚ) * 2 - 1) / (2 - 1) = 0.1),
      max_eq_right (by norm_num : (0 : ℚ) ≤ 0.1), pyRound4_eval _ 1000 (by norm_num)]
    norm_num

/-- Witness for `c6_invalid_and_kelly_zero`: part (a) at `p = 0.5, o = 1`,
part (b) at `p = 0.4, o = 2`. -/
theorem c6_invalid_and_kelly_zero_witness :
    (calculate_true_value 0.5 1).ev = -1 ∧
    (calculate_true_value 0.4 2).kelly_fraction = 0 := by
  refine ⟨(c6_invalid_and_kelly_zero.1 0.5 1 (by norm_num)).1, ?_⟩
  exact c6_invalid_and_kelly_zero.2.1 0.4 2 (by norm_num) (by norm_num) (by norm_num)
    (by norm_num)

/-- C9, counterexample: an out-of-range probability yields the rating
`"invalid_probability"`, which is not in the closed set
`{excellent, good, fair, poor, invalid, missing_odds}` the claim states. -/
theorem c9_counterexample :
    (calculate_true_value 2 2).rating ∉
      (["excellent", "good", "fair", "poor", "invalid", "missing_odds"] : List String) := by
  rw [calculate_true_value_badp 2 2 (by norm_num)]
  simp [_invalid_output]

/-- C9, amended: for every probability/odds combination — valid, out-of-range
or missing — the rating is a member of the closed set `{excellent, good, fair,
poor, invalid_probability, invalid_odds, missing_odds}` (the code flags
invalid inputs with the two reason strings `invalid_probability` /
`invalid_odds` rather than a single `invalid`). -/
theorem c9_rating_closed_set (p : ℚ) (odds : Option ℚ) :
    (calculate_value_bets_entry p odds).rating ∈
      (["excellent", "good", "fair", "poor",
        "invalid_probability", "invalid_odds", "missing_odds"] : List String) := by
  match odds with
  | none => simp [calculate_value_bets_entry, _invalid_output]
  | some o =>
    show (calculate_true_value p o).rating ∈ _
    by_cases hp : 0 ≤ p ∧ p ≤ 1
    · by_cases ho : o ≤ 1
      · rw [calculate_true_value_lowodds p o hp.1 hp.2 ho]
        simp [_invalid_output]
      · rw [calculate_true_value_valid p o hp.1 hp.2 (not_le.mp ho)]
        show _get_value_rating _ _ ∈ _
        unfold _get_value_rating
        split
        · simp
        · split
          · simp
          · split <;> simp
    · rw [calculate_true_value_badp p o hp]
      simp [_invalid_output]

theorem confidence_sanity_fix_le (conf : Outcome → ℚ) (pred o : Outcome) :
    confidence_sanity_fix conf pred o ≤ confidence_sanity_fix conf pred pred := by
  have hmem : ∀ x : Outcome,
      conf x ≤ max (conf Outcome.home_win) (max (conf Outcome.draw) (conf Outcome.away_win)) := by
    intro x
    cases x
    · exact le_max_left _ _
    · exact le_trans (le_max_left _ _) (le_max_right _ _)
    · exact le_trans (le_max_right _ _) (le_max_right _ _)
  have hdef : ∀ x, confidence_sanity_fix conf pred x =
      if x = pred ∧ conf pred <
          max (conf Outcome.home_win) (max (conf Outcome.draw) (conf Outcome.away_win))
      then max (conf Outcome.home_win) (max (conf Outcome.draw) (conf Outcome.away_win)) + 2
      else conf x := fun x => rfl
  by_cases hlt : conf pred <
      max (conf Outcome.home_win) (max (conf Outcome.draw) (conf Outcome.away_win))
  · have hR : confidence_sanity_fix conf pred pred =
        max (conf Outcome.home_win) (max (conf Outcome.draw) (conf Outcome.away_win)) + 2 := by
      rw [hdef pred]
      exact if_pos ⟨rfl, hlt⟩
    rw [hR, hdef o]
    by_cases ho : o = pred
    · rw [if_pos ⟨ho, hlt⟩]
    · rw [if_neg (fun h => ho h.1)]
      exact le_trans (hmem o) (by linarith)
  · have hR : confidence_sanity_fix conf pred pred = conf pred := by
      rw [hdef pred]
      exact if_neg (fun h => hlt h.2)
    rw [hR, hdef o, if_neg (fun h => hlt h.2)]
    exact le_trans (hmem o) (le_of_not_lt hlt)

/-- C10: the outcome designated by the sanity check (the first outcome of the
probability dictionary holding the maximal probability) carries the maximal
probability and, in the returned dictionary, a confidence at least as large as
every other outcome (when it would not be highest it is overwritten to the
maximum plus 2 inside `confidence_sanity_fix`). -/
theorem c10_predicted_outcome_has_highest_confidence (ph pd pa : ℚ) (hd ad : TeamData)
    (inp : MatchInputs) :
    outcome_prob ph pd pa (predicted_outcome ph pd pa) = max ph (max pa pd) ∧
    ∀ o : Outcome,
      calculate_outcome_specific_confidence ph pd pa hd ad inp o ≤
      calculate_outcome_specific_confidence ph pd pa hd ad inp (predicted_outcome ph pd pa) := by
  constructor
  · simp only [predicted_outcome]
    split_ifs with h1 h2
    · exact h1
    · exact h2
    · rcases max_choice ph (max pa pd) with h | h
      · exact absurd h.symm h1
      · rcases max_choice pa pd with h' | h'
        · simp only [outcome_prob]
          rw [h, h']
        · exact absurd (h.trans h').symm h2
  · intro o
    simp only [calculate_outcome_specific_confidence]
    exact confidence_sanity_fix_le _ _ o

theorem ctx_confidence_bounds (hd ad : TeamData) (inp : MatchInputs) :
    40 ≤ _calculate_context_confidence hd ad inp ∧
    _calculate_context_confidence hd ad inp ≤ 95 := by
  simp only [_calculate_context_confidence]
  exact ⟨le_min (by norm_num) (le_max_left _ _), min_le_left _ _⟩

theorem win_base_confidence_at_07 : win_base_confidence 0.7 = 78 := by
  simp only [win_base_confidence]
  rw [if_pos (by norm_num : (0.70 : ℚ) ≤ 0.7)]
  norm_num

theorem win_base_confidence_at_03 : win_base_confidence 0.3 = 50 := by
  simp only [win_base_confidence]
  rw [if_neg (by norm_num : ¬(0.70 : ℚ) ≤ 0.3), if_neg (by norm_num : ¬(0.60 : ℚ) ≤ 0.3),
    if_neg (by norm_num : ¬(0.50 : ℚ) ≤ 0.3), if_neg (by norm_num : ¬(0.40 : ℚ) ≤ 0.3),
    if_pos (by norm_num : (0.30 : ℚ) ≤ 0.3)]
  norm_num

theorem predicted_winner_at_07_03 : predicted_winner 0.7 0.3 = PredLabel.home := by
  simp only [predicted_winner]
  rw [if_pos (by norm_num : (0.3 : ℚ) ≤ 0.7 ∧ (1 - (0.7 + 0.3) : ℚ) ≤ 0.7)]

theorem win_conf_home_lb_07 (ctx : ℚ) (ht ot : String) (h40 : 40 ≤ ctx) :
    76.8 ≤ _calculate_win_confidence 0.7 ctx ht ot 0.7 0.3 Side.home := by
  simp only [_calculate_win_confidence, win_base_confidence_at_07, predicted_winner_at_07_03]
  norm_num
  linarith

theorem win_conf_away_ub_03 (ctx : ℚ) (ht ot : String) (h95 : ctx ≤ 95) :
    _calculate_win_confidence 0.3 ctx ht ot 0.7 0.3 Side.away ≤ 59 := by
  simp only [_calculate_win_confidence, win_base_confidence_at_03, predicted_winner_at_07_03]
  norm_num
  linarith

theorem draw_conf_ub (p ctx he ae : ℚ) : _calculate_draw_confidence p ctx he ae ≤ 70 := by
  simp only [_calculate_draw_confidence]
  exact min_le_left _ _

theorem predicted_outcome_at_07_0_03 : predicted_outcome 0.7 0 0.3 = Outcome.home_win := by
  simp only [predicted_outcome]
  rw [if_pos]
  rw [max_eq_left (by norm_num : (0 : ℚ) ≤ 0.3), max_eq_left (by norm_num : (0.3 : ℚ) ≤ 0.7)]

/-- In any fixed match context, the probability pair `p = 0.7`, `1 − p = 0.3`
(draw `0`) yields strictly larger confidence for the home win than for the
away win: confidence depends on the probability's magnitude, not only on its
entropy-based certainty (which is symmetric under `p ↦ 1 − p`). -/
theorem conf_gap_at_07_03 (hd ad : TeamData) (inp : MatchInputs) :
    calculate_outcome_specific_confidence 0.7 0 0.3 hd ad inp Outcome.away_win <
    calculate_outcome_specific_confidence 0.7 0 0.3 hd ad inp Outcome.home_win := by
  obtain ⟨h40, h95⟩ := ctx_confidence_bounds hd ad inp
  simp only [calculate_outcome_specific_confidence, confidence_sanity_fix,
    predicted_outcome_at_07_0_03]
  set ctx := _calculate_context_confidence hd ad inp with hctx
  set hc := _calculate_win_confidence 0.7 ctx hd.base_quality.structural_tier
    ad.base_quality.structural_tier 0.7 0.3 Side.home with hhc
  set ac := _calculate_win_confidence 0.3 ctx ad.base_quality.structural_tier
    hd.base_quality.structural_tier 0.7 0.3 Side.away with hac
  set dc := _calculate_draw_confidence 0 ctx hd.base_quality.elo ad.base_quality.elo with hdc
  have h1 : 76.8 ≤ hc := win_conf_home_lb_07 ctx _ _ h40
  have h2 : ac ≤ 59 := win_conf_away_ub_03 ctx _ _ h95
  have h3 : dc ≤ 70 := draw_conf_ub 0 ctx _ _
  have hmc : max hc (max dc ac) = hc := max_eq_left (max_le (by linarith) (by linarith))
  rw [hmc]
  rw [if_neg (fun h => Outcome.noConfusion h.1), if_neg (fun h => absurd h.2 (lt_irrefl hc))]
  linarith

/-- C1, counterexample: at the concrete context below (five matches observed,
50% clean-sheet and BTTS rates, average tiers, equal Elo, no injuries, equal
rest) with outcome probabilities `(0.7, 0, 0.3)`, the probabilities `p = 0.7`
and `1 − p = 0.3` receive *different* confidences, contradicting the claimed
formula `certainty(p) × reliability × 100` (binary entropy is symmetric, so
it gives `certainty(0.7) = certainty(0.3)` and hence equal confidence). -/
theorem c1_counterexample :
    calculate_outcome_specific_confidence 0.7 0 0.3
      { matches_played := 5, clean_sheet_pct := 50, btts_pct := 50,
        home_advantage := { strength := "strong" },
        base_quality := { elo := 1600, structural_tier := "average" } }
      { matches_played := 5, clean_sheet_pct := 50, btts_pct := 50,
        home_advantage := { strength := "moderate" },
        base_quality := { elo := 1600, structural_tier := "average" } }
      { home_injuries := "None", away_injuries := "None", home_rest := 7, away_rest := 7 }
      Outcome.home_win ≠
    calculate_outcome_specific_confidence 0.7 0 0.3
      { matches_played := 5, clean_sheet_pct := 50, btts_pct := 50,
        home_advantage := { strength := "strong" },
        base_quality := { elo := 1600, structural_tier := "average" } }
      { matches_played := 5, clean_sheet_pct := 50, btts_pct := 50,
        home_advantage := { strength := "moderate" },
        base_quality := { elo := 1600, structural_tier := "average" } }
      { home_injuries := "None", away_injuries := "None", home_rest := 7, away_rest := 7 }
      Outcome.away_win :=
  ne_of_gt (conf_gap_at_07_03 _ _ _)

/-- C1, amended: per-outcome win confidence is not `certainty × reliability ×
100`; it is built from probability-tiered base values (favouring the predicted
winner with a `+8` boost when its probability exceeds `0.35`), blended `0.8 /
0.2` with the context confidence and clamped to `[35, 85]`.  In particular,
for every match context, the probabilities `0.7` and `0.3 = 1 − 0.7` receive
strictly different confidences (home strictly above away). -/
theorem c1_confidence_not_certainty_based (hd ad : TeamData) (inp : MatchInputs) :
    calculate_outcome_specific_confidence 0.7 0 0.3 hd ad inp Outcome.away_win <
    calculate_outcome_specific_confidence 0.7 0 0.3 hd ad inp Outcome.home_win :=
  conf_gap_at_07_03 hd ad inp

theorem apply_injury_impact_fst (xgf xga : ℝ) (lvl : String) (r : ℤ) (ft : ℝ) :
    (apply_injury_impact xgf xga lvl r ft).1 =
      max 0.3 (xgf * attack_mult lvl * fatigue_mult r * (1 + ft * 0.2)) := rfl

theorem apply_injury_impact_snd (xgf xga : ℝ) (lvl : String) (r : ℤ) (ft : ℝ) :
    (apply_injury_impact xgf xga lvl r ft).2 =
      max 0.3 (xga * (2 - defense_mult lvl) * fatigue_mult r * (1 + ft * 0.2)) := rfl

theorem league_avg_xg_pos (league : String) : 0 < _get_league_avg_xg league := by
  unfold _get_league_avg_xg
  split_ifs <;> norm_num

/-- C7, counterexample: with a small home attack rate (`home_xg = 0.2`, rest 7,
flat form, all else equal) both the `"Crisis"` and the `"None"` injury-adjusted
attack values fall below the `0.3` floor of `apply_injury_impact`
(`0.2·0.75·0.98 = 0.147` and `0.2·1.0·0.98 = 0.196`), so the two computed
`λ_home` are *equal*, refuting the claimed strict reduction for every fixed
record pair. -/
theorem c7_counterexample :
    (calculate_goal_expectancy 0.2 1 1 1 "Crisis" "None" 7 7 0 0 1 1 0 0 "Premier League").1 =
    (calculate_goal_expectancy 0.2 1 1 1 "None" "None" 7 7 0 0 1 1 0 0 "Premier League").1 := by
  have hA : (apply_injury_impact 0.2 1 "Crisis" 7 0).1 =
      (apply_injury_impact 0.2 1 "None" 7 0).1 := by
    rw [apply_injury_impact_fst, apply_injury_impact_fst]
    simp [attack_mult, fatigue_mult]
    norm_num
  simp only [calculate_goal_expectancy]
  rw [hA]

/-- C7, amended: the `"Crisis"` home injury label strictly reduces `λ_home`
relative to `"None"`, all else equal, *provided* the floors do not bind: the
un-adjusted home attack product must be at least `0.4` (so both injury-scaled
values clear the `0.3` floor), the home attack strength must be positive, and
the `"None"` expectancy must exceed the `0.1` output floor. -/
theorem c7_crisis_reduces_lambda_home (home_xg home_xga away_xg away_xga : ℝ)
    (away_injuries : String) (home_rest away_rest : ℤ) (home_form away_form : ℝ)
    (haS aaS : ℝ) (hb ab : ℝ) (league : String)
    (hX : 0.4 ≤ home_xg * fatigue_mult home_rest * (1 + home_form * 0.2))
    (hA : 0 < haS)
    (hN : 0.1 < (calculate_goal_expectancy home_xg home_xga away_xg away_xga
      "None" away_injuries home_rest away_rest home_form away_form
      haS aaS hb ab league).1) :
    (calculate_goal_expectancy home_xg home_xga away_xg away_xga
      "Crisis" away_injuries home_rest away_rest home_form away_form
      haS aaS hb ab league).1 <
    (calculate_goal_expectancy home_xg home_xga away_xg away_xga
      "None" away_injuries home_rest away_rest home_form away_form
      haS aaS hb ab league).1 := by
  have hamC : attack_mult "Crisis" = 0.75 := by
    unfold attack_mult
    rw [if_neg (by decide), if_neg (by decide), if_neg (by decide), if_neg (by decide),
      if_pos rfl]
  have hamN : attack_mult "None" = 1 := by
    unfold attack_mult
    rw [if_pos rfl]
    norm_num
  set Y := home_xg * fatigue_mult home_rest * (1 + home_form * 0.2) with hYdef
  set r1 := ((apply_injury_impact away_xg away_xga away_injuries away_rest away_form).2 /
    _get_league_avg_xg league) ^ (0.7 : ℝ) with hr1def
  set r2 := haS ^ (0.3 : ℝ) with hr2def
  have hCadj : (apply_injury_impact home_xg home_xga "Crisis" home_rest home_form).1 =
      0.75 * Y := by
    rw [apply_injury_impact_fst, hamC]
    have harr : home_xg * 0.75 * fatigue_mult home_rest * (1 + home_form * 0.2) = 0.75 * Y := by
      rw [hYdef]; ring
    rw [harr, max_eq_right (by linarith)]
  have hNadj : (apply_injury_impact home_xg home_xga "None" home_rest home_form).1 = Y := by
    rw [apply_injury_impact_fst, hamN]
    have harr : home_xg * 1 * fatigue_mult home_rest * (1 + home_form * 0.2) = Y := by
      rw [hYdef]; ring
    rw [harr, max_eq_right (by linarith)]
  have hr1pos : 0 < r1 := by
    rw [hr1def]
    apply Real.rpow_pos_of_pos
    apply div_pos _ (league_avg_xg_pos league)
    rw [apply_injury_impact_snd]
    exact lt_of_lt_of_le (by norm_num) (le_max_left _ _)
  have hr2pos : 0 < r2 := by
    rw [hr2def]
    exact Real.rpow_pos_of_pos hA _
  have hgoal : ∀ lvl : String,
      (calculate_goal_expectancy home_xg home_xga away_xg away_xga
        lvl away_injuries home_rest away_rest home_form away_form
        haS aaS hb ab league).1 =
      max 0.1 ((apply_injury_impact home_xg home_xga lvl home_rest home_form).1 * r1 * r2 + hb) :=
    fun lvl => rfl
  rw [hgoal "Crisis", hgoal "None", hCadj, hNadj]
  rw [hgoal "None", hNadj] at hN
  have hYpos : 0 < Y := by linarith
  have hprod : 0 < Y * r1 * r2 := mul_pos (mul_pos hYpos hr1pos) hr2pos
  have hlt : 0.75 * Y * r1 * r2 + hb < Y * r1 * r2 + hb := by nlinarith
  have hnp : (0.1 : ℝ) < Y * r1 * r2 + hb := by
    rcases lt_max_iff.mp hN with h | h
    · norm_num at h
    · exact h
  rw [max_eq_right hnp.le]
  exact max_lt hnp hlt

theorem attack_mult_none : attack_mult "None" = 1 := by
  unfold attack_mult
  rw [if_pos rfl]
  norm_num

theorem defense_mult_none : defense_mult "None" = 1 := by
  unfold defense_mult
  rw [if_pos rfl]
  norm_num

theorem fatigue_mult_at_8 : fatigue_mult 8 = 1 := by
  unfold fatigue_mult
  rw [if_neg (by decide), if_neg (by decide), if_neg (by decide), if_neg (by decide),
    if_neg (by decide), if_neg (by decide), if_pos rfl]
  norm_num

/-- Witness for `c7_crisis_reduces_lambda_home` at a concrete record pair
(per-match xG 1.0, away xGA equal to the league baseline 1.45, eight rest
days, flat form, unit attack strengths, no home boost). -/
theorem c7_crisis_reduces_lambda_home_witness :
    (calculate_goal_expectancy 1 1 1 1.45 "Crisis" "None" 8 8 0 0 1 1 0 0 "Premier League").1 <
    (calculate_goal_expectancy 1 1 1 1.45 "None" "None" 8 8 0 0 1 1 0 0 "Premier League").1 := by
  apply c7_crisis_reduces_lambda_home
  · rw [fatigue_mult_at_8]
    norm_num
  · norm_num
  · have h1 : (apply_injury_impact 1 1 "None" 8 0).1 = 1 := by
      rw [apply_injury_impact_fst, attack_mult_none, fatigue_mult_at_8]
      rw [show (1 : ℝ) * 1 * 1 * (1 + 0 * 0.2) = 1 by ring]
      rw [max_eq_right (by norm_num)]
    have h2 : (apply_injury_impact 1 1.45 "None" 8 0).2 = 1.45 := by
      rw [apply_injury_impact_snd, defense_mult_none, fatigue_mult_at_8]
      rw [show (1.45 : ℝ) * (2 - 1) * 1 * (1 + 0 * 0.2) = 1.45 by ring]
      rw [max_eq_right (by norm_num)]
    have h3 : _get_league_avg_xg "Premier League" = 1.45 := by
      unfold _get_league_avg_xg
      rw [if_pos rfl]
    have hshape : (calculate_goal_expectancy 1 1 1 1.45
        "None" "None" 8 8 0 0 1 1 0 0 "Premier League").1 =
        max 0.1 ((apply_injury_impact 1 1 "None" 8 0).1 *
          ((apply_injury_impact 1 1.45 "None" 8 0).2 /
            _get_league_avg_xg "Premier League") ^ (0.7 : ℝ) * (1 : ℝ) ^ (0.3 : ℝ) + 0) := rfl
    rw [hshape, h1, h2, h3]
    rw [show (1.45 : ℝ) / 1.45 = 1 by norm_num]
    rw [Real.one_rpow, Real.one_rpow]
    exact lt_max_iff.mpr (Or.inr (by norm_num))

/-- C8, counterexample: a request with two distinct same-league teams and all
four quoted odds equal to `1.0` (hence `≤ 1.0`) passes validation with an
*empty* error list, and `predict_match_enhanced` proceeds to produce a full
result: the odds ≤ 1.0 condition is not among the pre-computation validation
errors. -/
theorem c8_counterexample :
    validate_team_selection { base_name := "Arsenal", league := "Premier League" }
      { base_name := "Chelsea", league := "Premier League" } = [] ∧
    predict_match_produces_result
      { home_odds := 1, draw_odds := 1, away_odds := 1, over_odds := 1 }
      { base_name := "Arsenal", league := "Premier League" }
      { base_name := "Chelsea", league := "Premier League" } = true := by
  constructor
  · simp [validate_team_selection]
  · simp [predict_match_produces_result, validate_team_selection]

/-- C8, amended: exactly two validation errors exist — same team on both sides
and teams from different leagues.  They are detected by
`validate_team_selection` before any numeric computation, returned as
human-readable messages, and a prediction result is produced precisely when
the error list is empty.  Odds ≤ 1.0 is *not* validated up front: invalid
odds surface later, per market, as `invalid_odds` value-bet records inside a
fully produced result. -/
theorem c8_validation_gate (inputs : EngineInputs) (hd ad : EngineTeamData) :
    (predict_match_produces_result inputs hd ad = true ↔
      validate_team_selection hd ad = []) ∧
    (validate_team_selection hd ad ≠ [] ↔
      (hd.base_name = ad.base_name ∨ hd.league ≠ ad.league)) := by
  constructor
  · simp [predict_match_produces_result, List.isEmpty_iff]
  · unfold validate_team_selection
    by_cases h1 : hd.base_name = ad.base_name <;> by_cases h2 : hd.league = ad.league <;>
      simp [h1, h2]

theorem _normalize_triple_nonneg_sum (a b c : ℝ) :
    0 ≤ (_normalize_triple a b c).1 ∧ 0 ≤ (_normalize_triple a b c).2.1 ∧
    0 ≤ (_normalize_triple a b c).2.2 ∧
    (_normalize_triple a b c).1 + (_normalize_triple a b c).2.1 +
      (_normalize_triple a b c).2.2 = 1 := by
  unfold _normalize_triple
  by_cases hs : max a 0 + max b 0 + max c 0 ≤ 0
  · rw [if_pos hs]
    norm_num
  · rw [if_neg hs]
    push_neg at hs
    refine ⟨div_nonneg (le_max_right a 0) hs.le, div_nonneg (le_max_right b 0) hs.le,
      div_nonneg (le_max_right c 0) hs.le, ?_⟩
    rw [div_add_div_same, div_add_div_same]
    exact div_self (ne_of_gt hs)

theorem _normalize_triple_of_pos (a b c : ℝ) (ha : 0 ≤ a) (hb : 0 ≤ b) (hc : 0 ≤ c)
    (hs : 0 < a + b + c) :
    _normalize_triple a b c = (a / (a + b + c), b / (a + b + c), c / (a + b + c)) := by
  unfold _normalize_triple
  rw [max_eq_left ha, max_eq_left hb, max_eq_left hc, if_neg (not_le.mpr hs)]

/-- C4: for strictly positive goal expectancies, both the Poisson grid triple
of `_calculate_poisson_match_probs` and the final blended triple of
`predict_winner_enhanced` have non-negative components and sum exactly to 1. -/
theorem c4_outcome_triples_normalized (lh la he ae : ℝ) (hlh : 0 < lh) (hla : 0 < la) :
    (0 ≤ (_calculate_poisson_match_probs lh la).1 ∧
      0 ≤ (_calculate_poisson_match_probs lh la).2.1 ∧
      0 ≤ (_calculate_poisson_match_probs lh la).2.2 ∧
      (_calculate_poisson_match_probs lh la).1 + (_calculate_poisson_match_probs lh la).2.1 +
        (_calculate_poisson_match_probs lh la).2.2 = 1) ∧
    (0 ≤ (predict_winner_probs lh la he ae).1 ∧
      0 ≤ (predict_winner_probs lh la he ae).2.1 ∧
      0 ≤ (predict_winner_probs lh la he ae).2.2 ∧
      (predict_winner_probs lh la he ae).1 + (predict_winner_probs lh la he ae).2.1 +
        (predict_winner_probs lh la he ae).2.2 = 1) := by
  constructor
  · exact _normalize_triple_nonneg_sum _ _ _
  · exact _normalize_triple_nonneg_sum _ _ _

/-- Witness for `c4_outcome_triples_normalized` at `λ_home = 1.8`,
`λ_away = 1.1`, Elo ratings `1600` and `1500`. -/
theorem c4_outcome_triples_normalized_witness :
    (predict_winner_probs 1.8 1.1 1600 1500).1 +
      (predict_winner_probs 1.8 1.1 1600 1500).2.1 +
      (predict_winner_probs 1.8 1.1 1600 1500).2.2 = 1 ∧
    (_calculate_poisson_match_probs 1.8 1.1).1 + (_calculate_poisson_match_probs 1.8 1.1).2.1 +
      (_calculate_poisson_match_probs 1.8 1.1).2.2 = 1 :=
  ⟨(c4_outcome_triples_normalized 1.8 1.1 1600 1500 (by norm_num) (by norm_num)).2.2.2.2,
   (c4_outcome_triples_normalized 1.8 1.1 1600 1500 (by norm_num) (by norm_num)).1.2.2.2⟩

theorem ppmf_pos (lam : ℝ) (h : 0 < lam) (i : ℕ) : 0 < ppmf lam i := by
  unfold ppmf
  apply div_pos (mul_pos (Real.exp_pos _) (pow_pos h i))
  exact_mod_cast Nat.factorial_pos i

theorem sum_ppmf_eq (lam : ℝ) (n : ℕ) :
    ∑ i in range n, ppmf lam i =
      Real.exp (-lam) * ∑ i in range n, lam ^ i / (Nat.factorial i : ℝ) := by
  rw [Finset.mul_sum]
  apply Finset.sum_congr rfl
  intro i _
  unfold ppmf
  rw [mul_div_assoc]

theorem sum_ppmf_lt_one (lam : ℝ) (h : 0 < lam) (n : ℕ) :
    ∑ i in range n, ppmf lam i < 1 := by
  rw [sum_ppmf_eq]
  have h1 : ∑ i in range n, lam ^ i / (Nat.factorial i : ℝ) < Real.exp lam := by
    have h2 : ∑ i in range n, lam ^ i / (Nat.factorial i : ℝ) <
        ∑ i in range (n + 1), lam ^ i / (Nat.factorial i : ℝ) := by
      rw [Finset.sum_range_succ]
      have h3 : 0 < lam ^ n / (Nat.factorial n : ℝ) :=
        div_pos (pow_pos h n) (by exact_mod_cast Nat.factorial_pos n)
      linarith
    exact lt_of_lt_of_le h2 (Real.sum_le_exp_of_nonneg h.le (n + 1))
  calc Real.exp (-lam) * ∑ i in range n, lam ^ i / (Nat.factorial i : ℝ)
      < Real.exp (-lam) * Real.exp lam := by
        exact mul_lt_mul_of_pos_left h1 (Real.exp_pos _)
    _ = 1 := by
        rw [← Real.exp_add]
        simp

theorem sum_ppmf_pos (lam : ℝ) (h : 0 < lam) (n : ℕ) (hn : 0 < n) :
    0 < ∑ i in range n, ppmf lam i :=
  Finset.sum_pos (fun i _ => ppmf_pos lam h i)
    (Finset.nonempty_range_iff.mpr (Nat.pos_iff_ne_zero.mp hn))

theorem bucketHW_eq (n : ℕ) (f g : ℕ → ℝ) :
    bucketHW n f g = ∑ i in range n, f i * ∑ j in range n, (if j < i then g j else 0) := by
  unfold bucketHW
  apply Finset.sum_congr rfl
  intro i _
  rw [Finset.mul_sum]
  apply Finset.sum_congr rfl
  intro j _
  by_cases hj : j < i
  · rw [if_pos hj, if_pos hj]
  · rw [if_neg hj, if_neg hj, mul_zero]

theorem bucketAW_eq (n : ℕ) (f g : ℕ → ℝ) :
    bucketAW n f g = ∑ i in range n, f i * ∑ j in range n, (if i < j then g j else 0) := by
  unfold bucketAW
  apply Finset.sum_congr rfl
  intro i _
  rw [Finset.mul_sum]
  apply Finset.sum_congr rfl
  intro j _
  by_cases hj : i < j
  · rw [if_pos hj, if_pos hj]
  · rw [if_neg hj, if_neg hj, mul_zero]

theorem buckets_total (n : ℕ) (f g : ℕ → ℝ) :
    bucketHW n f g + bucketDR n f g + bucketAW n f g =
      (∑ i in range n, f i) * (∑ j in range n, g j) := by
  unfold bucketHW bucketDR bucketAW
  rw [Finset.sum_mul_sum]
  rw [← Finset.sum_add_distrib, ← Finset.sum_add_distrib]
  apply Finset.sum_congr rfl
  intro i _
  rw [← Finset.sum_add_distrib, ← Finset.sum_add_distrib]
  apply Finset.sum_congr rfl
  intro j _
  rcases lt_trichotomy i j with h | h | h
  · rw [if_neg (by omega), if_neg (by omega), if_pos h]
    ring
  · rw [if_neg (by omega), if_pos h, if_neg (by omega)]
    ring
  · rw [if_pos h, if_neg (by omega), if_neg (by omega)]
    ring

theorem bucket_nonneg (n : ℕ) (f g : ℕ → ℝ) (hf : ∀ i, 0 ≤ f i) (hg : ∀ j, 0 ≤ g j)
    (P : ℕ → ℕ → Prop) [∀ i j, Decidable (P i j)] :
    0 ≤ ∑ i in range n, ∑ j in range n, if P i j then f i * g j else 0 := by
  apply Finset.sum_nonneg
  intro i _
  apply Finset.sum_nonneg
  intro j _
  by_cases h : P i j
  · rw [if_pos h]
    exact mul_nonneg (hf i) (hg j)
  · rw [if_neg h]

theorem ep_home_win_nonneg (lh la : ℝ) (hlh : 0 < lh) (hla : 0 < la) :
    0 ≤ ep_home_win lh la := by
  unfold ep_home_win bucketHW
  exact bucket_nonneg 9 (ppmf lh) (ppmf la) (fun i => (ppmf_pos lh hlh i).le)
    (fun j => (ppmf_pos la hla j).le) (fun i j => j < i)

theorem ep_draw_nonneg (lh la : ℝ) (hlh : 0 < lh) (hla : 0 < la) :
    0 ≤ ep_draw lh la := by
  unfold ep_draw bucketDR
  exact bucket_nonneg 9 (ppmf lh) (ppmf la) (fun i => (ppmf_pos lh hlh i).le)
    (fun j => (ppmf_pos la hla j).le) (fun i j => i = j)

theorem ep_away_win_nonneg (lh la : ℝ) (hlh : 0 < lh) (hla : 0 < la) :
    0 ≤ ep_away_win lh la := by
  unfold ep_away_win bucketAW
  exact bucket_nonneg 9 (ppmf lh) (ppmf la) (fun i => (ppmf_pos lh hlh i).le)
    (fun j => (ppmf_pos la hla j).le) (fun i j => i < j)

theorem ep_draw_pos (lh la : ℝ) (hlh : 0 < lh) (hla : 0 < la) : 0 < ep_draw lh la := by
  unfold ep_draw bucketDR
  apply Finset.sum_pos'
  · intro i _
    apply Finset.sum_nonneg
    intro j _
    by_cases h : i = j
    · rw [if_pos h]
      exact mul_nonneg (ppmf_pos lh hlh i).le (ppmf_pos la hla j).le
    · rw [if_neg h]
  · refine ⟨0, Finset.mem_range.mpr (by norm_num), ?_⟩
    apply Finset.sum_pos'
    · intro j _
      by_cases h : (0 : ℕ) = j
      · rw [if_pos h]
        exact (mul_pos (ppmf_pos lh hlh 0) (ppmf_pos la hla j)).le
      · rw [if_neg h]
    · refine ⟨0, Finset.mem_range.mpr (by norm_num), ?_⟩
      rw [if_pos rfl]
      exact mul_pos (ppmf_pos lh hlh 0) (ppmf_pos la hla 0)

theorem ep_tail_pos (lam : ℝ) (h : 0 < lam) : 0 < ep_tail lam := by
  unfold ep_tail
  linarith [sum_ppmf_lt_one lam h 9]

theorem ep_tail_lt_one (lam : ℝ) (h : 0 < lam) : ep_tail lam < 1 := by
  unfold ep_tail
  linarith [sum_ppmf_pos lam h 9 (by norm_num)]

/-- Closed form of `_calculate_poisson_match_probs`: the positive branch of
`_normalize_triple` is taken, and the normalising total lies strictly between
0 and 1 (the equal tail shares `tail_mass/2` do not restore the cross tail
mass, so the pre-normalization sum falls short of 1). -/
theorem ep_probs_closed_form (lh la : ℝ) (hlh : 0 < lh) (hla : 0 < la) :
    0 < ep_home_win lh la + ep_tail_mass lh la * 0.5 + ep_draw lh la +
        (ep_away_win lh la + ep_tail_mass lh la * 0.5) ∧
    ep_home_win lh la + ep_tail_mass lh la * 0.5 + ep_draw lh la +
        (ep_away_win lh la + ep_tail_mass lh la * 0.5) < 1 ∧
    _calculate_poisson_match_probs lh la =
      ((ep_home_win lh la + ep_tail_mass lh la * 0.5) /
          (ep_home_win lh la + ep_tail_mass lh la * 0.5 + ep_draw lh la +
            (ep_away_win lh la + ep_tail_mass lh la * 0.5)),
        ep_draw lh la /
          (ep_home_win lh la + ep_tail_mass lh la * 0.5 + ep_draw lh la +
            (ep_away_win lh la + ep_tail_mass lh la * 0.5)),
        (ep_away_win lh la + ep_tail_mass lh la * 0.5) /
          (ep_home_win lh la + ep_tail_mass lh la * 0.5 + ep_draw lh la +
            (ep_away_win lh la + ep_tail_mass lh la * 0.5))) := by
  have hσh1 : ∑ i in range 9, ppmf lh i < 1 := sum_ppmf_lt_one lh hlh 9
  have hσa1 : ∑ i in range 9, ppmf la i < 1 := sum_ppmf_lt_one la hla 9
  have hσh0 : 0 < ∑ i in range 9, ppmf lh i := sum_ppmf_pos lh hlh 9 (by norm_num)
  have hσa0 : 0 < ∑ i in range 9, ppmf la i := sum_ppmf_pos la hla 9 (by norm_num)
  have htm : 0 < ep_tail_mass lh la :=
    mul_pos (ep_tail_pos lh hlh) (ep_tail_pos la hla)
  have hsum : ep_home_win lh la + ep_draw lh la + ep_away_win lh la =
      (∑ i in range 9, ppmf lh i) * (∑ j in range 9, ppmf la j) := by
    unfold ep_home_win ep_draw ep_away_win
    exact buckets_total 9 (ppmf lh) (ppmf la)
  have htail_h : ep_tail lh = 1 - ∑ i in range 9, ppmf lh i := rfl
  have htail_a : ep_tail la = 1 - ∑ i in range 9, ppmf la i := rfl
  have htm_eq : ep_tail_mass lh la =
      (1 - ∑ i in range 9, ppmf lh i) * (1 - ∑ i in range 9, ppmf la i) := by
    unfold ep_tail_mass
    rw [htail_h, htail_a]
  have hS0 : 0 < ep_home_win lh la + ep_tail_mass lh la * 0.5 + ep_draw lh la +
      (ep_away_win lh la + ep_tail_mass lh la * 0.5) := by
    have := ep_home_win_nonneg lh la hlh hla
    have := ep_draw_nonneg lh la hlh hla
    have := ep_away_win_nonneg lh la hlh hla
    linarith
  have hS1 : ep_home_win lh la + ep_tail_mass lh la * 0.5 + ep_draw lh la +
      (ep_away_win lh la + ep_tail_mass lh la * 0.5) < 1 := by
    have hrearr : ep_home_win lh la + ep_tail_mass lh la * 0.5 + ep_draw lh la +
        (ep_away_win lh la + ep_tail_mass lh la * 0.5) =
        (ep_home_win lh la + ep_draw lh la + ep_away_win lh la) + ep_tail_mass lh la := by
      ring
    rw [hrearr, hsum, htm_eq]
    nlinarith
  refine ⟨hS0, hS1, ?_⟩
  unfold _calculate_poisson_match_probs
  rw [_normalize_triple_of_pos _ _ _
    (by linarith [ep_home_win_nonneg lh la hlh hla])
    (ep_draw_nonneg lh la hlh hla)
    (by linarith [ep_away_win_nonneg lh la hlh hla]) hS0]

/-- C3, counterexample: at `λ_home = λ_away = 1` the outcome triple of
`_calculate_poisson_match_probs` differs from the spec's proportional tail
redistribution: the code splits only the *product* of the two per-side tails
equally (0.5/0.5) and then rescales the whole triple, so its draw component
`dr / S` with `S < 1` strictly exceeds the untouched draw component `dr` of
the proportional redistribution. -/
theorem c3_counterexample :
    _calculate_poisson_match_probs 1 1 ≠ spec_tail_redistribution 1 1 := by
  intro heq
  obtain ⟨hS0, hS1, hform⟩ := ep_probs_closed_form 1 1 (by norm_num) (by norm_num)
  have hdr : 0 < ep_draw 1 1 := ep_draw_pos 1 1 (by norm_num) (by norm_num)
  have h2 : (_calculate_poisson_match_probs 1 1).2.1 = (spec_tail_redistribution 1 1).2.1 := by
    rw [heq]
  have hspec : (spec_tail_redistribution 1 1).2.1 = ep_draw 1 1 := rfl
  rw [hform, hspec] at h2
  simp only at h2
  have hcontra : ep_draw 1 1 <
      ep_draw 1 1 /
        (ep_home_win 1 1 + ep_tail_mass 1 1 * 0.5 + ep_draw 1 1 +
          (ep_away_win 1 1 + ep_tail_mass 1 1 * 0.5)) := by
    rw [lt_div_iff hS0]
    nlinarith
  rw [h2] at hcontra
  exact lt_irrefl _ hcontra

/-- C3, amended: for strictly positive expectancies the residual tail is *not*
redistributed proportionally between home and away; instead half of the
product of the two per-side tail masses is added to each of the home-win and
away-win buckets, and the triple (draw included) is then rescaled by its
total, which restores total mass exactly 1. -/
theorem c3_tail_split_equally (lh la : ℝ) (hlh : 0 < lh) (hla : 0 < la) :
    _calculate_poisson_match_probs lh la =
      ((ep_home_win lh la + ep_tail_mass lh la * 0.5) /
          (ep_home_win lh la + ep_tail_mass lh la * 0.5 + ep_draw lh la +
            (ep_away_win lh la + ep_tail_mass lh la * 0.5)),
        ep_draw lh la /
          (ep_home_win lh la + ep_tail_mass lh la * 0.5 + ep_draw lh la +
            (ep_away_win lh la + ep_tail_mass lh la * 0.5)),
        (ep_away_win lh la + ep_tail_mass lh la * 0.5) /
          (ep_home_win lh la + ep_tail_mass lh la * 0.5 + ep_draw lh la +
            (ep_away_win lh la + ep_tail_mass lh la * 0.5))) ∧
    (_calculate_poisson_match_probs lh la).1 + (_calculate_poisson_match_probs lh la).2.1 +
      (_calculate_poisson_match_probs lh la).2.2 = 1 := by
  refine ⟨(ep_probs_closed_form lh la hlh hla).2.2, ?_⟩
  have h := _normalize_triple_nonneg_sum (ep_home_win lh la + ep_tail_mass lh la * 0.5)
    (ep_draw lh la) (ep_away_win lh la + ep_tail_mass lh la * 0.5)
  exact h.2.2.2

/-- Witness for `c3_tail_split_equally` at `λ_home = λ_away = 1`. -/
theorem c3_tail_split_equally_witness :
    (_calculate_poisson_match_probs 1 1).1 + (_calculate_poisson_match_probs 1 1).2.1 +
      (_calculate_poisson_match_probs 1 1).2.2 = 1 :=
  (c3_tail_split_equally 1 1 (by norm_num) (by norm_num)).2

theorem sum_cross_lt (n : ℕ) (f g c : ℕ → ℝ)
    (hfg : ∀ k i, k < i → i < n → f i * g k < f k * g i)
    (hc : ∀ k i, k < i → i < n → c k < c i) (hn : 2 ≤ n) :
    (∑ i in range n, f i * c i) * (∑ i in range n, g i) <
    (∑ i in range n, g i * c i) * (∑ i in range n, f i) := by
  have hterm : ∀ i k, i < n → k < n → 0 ≤ (g i * f k - f i * g k) * (c i - c k) := by
    intro i k hi hk
    rcases lt_trichotomy i k with h | h | h
    · have h1 : g i * f k - f i * g k ≤ 0 := by
        have := hfg i k h hk
        nlinarith
      have h2 : c i - c k ≤ 0 := by
        have := hc i k h hk
        linarith
      nlinarith
    · subst h
      have h1 : g i * f i - f i * g i = 0 := by ring
      rw [h1, zero_mul]
    · have h1 : 0 ≤ g i * f k - f i * g k := by
        have := hfg k i h hi
        nlinarith
      have h2 : 0 ≤ c i - c k := by
        have := hc k i h hi
        linarith
      exact mul_nonneg h1 h2
  have key : 0 < ∑ i in range n, ∑ k in range n, (g i * f k - f i * g k) * (c i - c k) := by
    apply Finset.sum_pos'
    · intro i hi
      exact Finset.sum_nonneg fun k hk =>
        hterm i k (Finset.mem_range.mp hi) (Finset.mem_range.mp hk)
    · refine ⟨1, Finset.mem_range.mpr (by omega), ?_⟩
      apply Finset.sum_pos'
      · intro k hk
        exact hterm 1 k (by omega) (Finset.mem_range.mp hk)
      · refine ⟨0, Finset.mem_range.mpr (by omega), ?_⟩
        have h1 := hfg 0 1 (by omega) (by omega)
        have h2 := hc 0 1 (by omega) (by omega)
        nlinarith
  have expand : (∑ i in range n, g i * c i) * (∑ i in range n, f i) -
      (∑ i in range n, f i * c i) * (∑ i in range n, g i) =
      ∑ i in range n, ∑ k in range n, (g i * f k - f i * g k) * c i := by
    rw [Finset.sum_mul_sum, Finset.sum_mul_sum, ← Finset.sum_sub_distrib]
    apply Finset.sum_congr rfl
    intro i _
    rw [← Finset.sum_sub_distrib]
    apply Finset.sum_congr rfl
    intro k _
    ring
  have swap : ∑ i in range n, ∑ k in range n, (g i * f k - f i * g k) * c i =
      ∑ i in range n, ∑ k in range n, (g k * f i - f k * g i) * c k :=
    Finset.sum_comm
  have combine : 2 * (∑ i in range n, ∑ k in range n, (g i * f k - f i * g k) * c i) =
      ∑ i in range n, ∑ k in range n, (g i * f k - f i * g k) * (c i - c k) := by
    have htwo : 2 * (∑ i in range n, ∑ k in range n, (g i * f k - f i * g k) * c i) =
        (∑ i in range n, ∑ k in range n, (g i * f k - f i * g k) * c i) +
        (∑ i in range n, ∑ k in range n, (g k * f i - f k * g i) * c k) := by
      rw [← swap]
      ring
    rw [htwo, ← Finset.sum_add_distrib]
    apply Finset.sum_congr rfl
    intro i _
    rw [← Finset.sum_add_distrib]
    apply Finset.sum_congr rfl
    intro k _
    ring
  linarith

theorem partial_lower_lt (n : ℕ) (g : ℕ → ℝ) (hg : ∀ j, j < n → 0 < g j) (k i : ℕ)
    (hki : k < i) (hin : i < n) :
    (∑ j in range n, if j < k then g j else 0) < (∑ j in range n, if j < i then g j else 0) := by
  apply Finset.sum_lt_sum
  · intro j _
    by_cases h : j < k
    · rw [if_pos h, if_pos (by omega)]
    · rw [if_neg h]
      by_cases h' : j < i
      · rw [if_pos h']
        exact (hg j (by omega)).le
      · rw [if_neg h']
  · refine ⟨k, Finset.mem_range.mpr (by omega), ?_⟩
    rw [if_neg (lt_irrefl k), if_pos hki]
    exact hg k (by omega)

theorem partial_upper_lt (n : ℕ) (g : ℕ → ℝ) (hg : ∀ j, j < n → 0 < g j) (k i : ℕ)
    (hki : k < i) (hin : i < n) :
    (∑ j in range n, if i < j then g j else 0) < (∑ j in range n, if k < j then g j else 0) := by
  apply Finset.sum_lt_sum
  · intro j hj
    by_cases h : i < j
    · rw [if_pos h, if_pos (by omega)]
    · rw [if_neg h]
      by_cases h' : k < j
      · rw [if_pos h']
        exact (hg j (Finset.mem_range.mp hj)).le
      · rw [if_neg h']
  · refine ⟨i, Finset.mem_range.mpr hin, ?_⟩
    rw [if_neg (lt_irrefl i), if_pos hki]
    exact hg i hin

theorem ppmf_ratio_lt (lh lh' : ℝ) (h0 : 0 < lh) (hlt : lh < lh') (k i : ℕ) (hki : k < i) :
    ppmf lh i * ppmf lh' k < ppmf lh k * ppmf lh' i := by
  have h0' : 0 < lh' := lt_trans h0 hlt
  have hpow : lh ^ i * lh' ^ k < lh ^ k * lh' ^ i := by
    obtain ⟨m, rfl⟩ : ∃ m, i = k + (m + 1) := ⟨i - k - 1, by omega⟩
    rw [pow_add lh k (m + 1), pow_add lh' k (m + 1)]
    have hm : lh ^ (m + 1) < lh' ^ (m + 1) :=
      pow_lt_pow_left hlt h0.le (Nat.succ_ne_zero m)
    have hk1 : 0 < lh ^ k := pow_pos h0 k
    have hk2 : 0 < lh' ^ k := pow_pos h0' k
    have hmul := mul_lt_mul_of_pos_left hm (mul_pos hk1 hk2)
    nlinarith [hmul]
  unfold ppmf
  have e1 : 0 < Real.exp (-lh) := Real.exp_pos _
  have e2 : 0 < Real.exp (-lh') := Real.exp_pos _
  have fi : 0 < (Nat.factorial i : ℝ) := by exact_mod_cast Nat.factorial_pos i
  have fk : 0 < (Nat.factorial k : ℝ) := by exact_mod_cast Nat.factorial_pos k
  rw [div_mul_div_comm, div_mul_div_comm, div_lt_div_iff (by positivity) (by positivity)]
  nlinarith [mul_pos e1 e2, mul_pos fi fk, mul_pos (mul_pos e1 e2) (mul_pos fi fk), hpow]

/-- C5: in the Poisson grid computation of
`PoissonCalculator.calculate_poisson_probabilities`, holding `λ_away > 0`
fixed, strictly increasing `λ_home` strictly increases the normalized
`P(home_win)` and strictly decreases the normalized `P(away_win)`. -/
theorem c5_poisson_grid_monotone (la lh lh' : ℝ) (hla : 0 < la) (hlh : 0 < lh)
    (hlt : lh < lh') :
    (calculate_poisson_probabilities lh la).1 < (calculate_poisson_probabilities lh' la).1 ∧
    (calculate_poisson_probabilities lh' la).2.2 <
      (calculate_poisson_probabilities lh la).2.2 := by
  have hlh' : 0 < lh' := lt_trans hlh hlt
  have hA : 0 < ∑ j in range 8, ppmf la j := sum_ppmf_pos la hla 8 (by norm_num)
  have hT : 0 < ∑ i in range 8, ppmf lh i := sum_ppmf_pos lh hlh 8 (by norm_num)
  have hT' : 0 < ∑ i in range 8, ppmf lh' i := sum_ppmf_pos lh' hlh' 8 (by norm_num)
  have htot : pc_total lh la = (∑ i in range 8, ppmf lh i) * (∑ j in range 8, ppmf la j) := by
    unfold pc_total pc_home_win pc_draw pc_away_win
    exact buckets_total 8 (ppmf lh) (ppmf la)
  have htot' : pc_total lh' la =
      (∑ i in range 8, ppmf lh' i) * (∑ j in range 8, ppmf la j) := by
    unfold pc_total pc_home_win pc_draw pc_away_win
    exact buckets_total 8 (ppmf lh') (ppmf la)
  have htotpos : 0 < pc_total lh la := by
    rw [htot]
    exact mul_pos hT hA
  have htotpos' : 0 < pc_total lh' la := by
    rw [htot']
    exact mul_pos hT' hA
  have hbranch : calculate_poisson_probabilities lh la =
      (pc_home_win lh la / pc_total lh la, pc_draw lh la / pc_total lh la,
        pc_away_win lh la / pc_total lh la) := by
    unfold calculate_poisson_probabilities
    rw [if_pos htotpos]
  have hbranch' : calculate_poisson_probabilities lh' la =
      (pc_home_win lh' la / pc_total lh' la, pc_draw lh' la / pc_total lh' la,
        pc_away_win lh' la / pc_total lh' la) := by
    unfold calculate_poisson_probabilities
    rw [if_pos htotpos']
  have hHW : pc_home_win lh la =
      ∑ i in range 8, ppmf lh i * ∑ j in range 8, (if j < i then ppmf la j else 0) := by
    unfold pc_home_win
    exact bucketHW_eq 8 (ppmf lh) (ppmf la)
  have hHW' : pc_home_win lh' la =
      ∑ i in range 8, ppmf lh' i * ∑ j in range 8, (if j < i then ppmf la j else 0) := by
    unfold pc_home_win
    exact bucketHW_eq 8 (ppmf lh') (ppmf la)
  have hAW : pc_away_win lh la =
      ∑ i in range 8, ppmf lh i * ∑ j in range 8, (if i < j then ppmf la j else 0) := by
    unfold pc_away_win
    exact bucketAW_eq 8 (ppmf lh) (ppmf la)
  have hAW' : pc_away_win lh' la =
      ∑ i in range 8, ppmf lh' i * ∑ j in range 8, (if i < j then ppmf la j else 0) := by
    unfold pc_away_win
    exact bucketAW_eq 8 (ppmf lh') (ppmf la)
  have hfg : ∀ k i : ℕ, k < i → i < 8 → ppmf lh i * ppmf lh' k < ppmf lh k * ppmf lh' i :=
    fun k i hki _ => ppmf_ratio_lt lh lh' hlh hlt k i hki
  have keyH :
      (∑ i in range 8, ppmf lh i * ∑ j in range 8, (if j < i then ppmf la j else 0)) *
        (∑ i in range 8, ppmf lh' i) <
      (∑ i in range 8, ppmf lh' i * ∑ j in range 8, (if j < i then ppmf la j else 0)) *
        (∑ i in range 8, ppmf lh i) :=
    sum_cross_lt 8 (ppmf lh) (ppmf lh')
      (fun i => ∑ j in range 8, (if j < i then ppmf la j else 0)) hfg
      (fun k i hki hin => partial_lower_lt 8 (ppmf la) (fun j _ => ppmf_pos la hla j) k i hki hin)
      (by norm_num)
  have keyAneg :
      (∑ i in range 8, ppmf lh i * -(∑ j in range 8, (if i < j then ppmf la j else 0))) *
        (∑ i in range 8, ppmf lh' i) <
      (∑ i in range 8, ppmf lh' i * -(∑ j in range 8, (if i < j then ppmf la j else 0))) *
        (∑ i in range 8, ppmf lh i) :=
    sum_cross_lt 8 (ppmf lh) (ppmf lh')
      (fun i => -(∑ j in range 8, (if i < j then ppmf la j else 0))) hfg
      (fun k i hki hin => neg_lt_neg
        (partial_upper_lt 8 (ppmf la) (fun j _ => ppmf_pos la hla j) k i hki hin))
      (by norm_num)
  have keyA :
      (∑ i in range 8, ppmf lh' i * ∑ j in range 8, (if i < j then ppmf la j else 0)) *
        (∑ i in range 8, ppmf lh i) <
      (∑ i in range 8, ppmf lh i * ∑ j in range 8, (if i < j then ppmf la j else 0)) *
        (∑ i in range 8, ppmf lh' i) := by
    have e1 : ∑ i in range 8, ppmf lh i * -(∑ j in range 8, (if i < j then ppmf la j else 0)) =
        -(∑ i in range 8, ppmf lh i * ∑ j in range 8, (if i < j then ppmf la j else 0)) := by
      rw [← Finset.sum_neg_distrib]
      apply Finset.sum_congr rfl
      intro i _
      ring
    have e2 : ∑ i in range 8, ppmf lh' i * -(∑ j in range 8, (if i < j then ppmf la j else 0)) =
        -(∑ i in range 8, ppmf lh' i * ∑ j in range 8, (if i < j then ppmf la j else 0)) := by
      rw [← Finset.sum_neg_distrib]
      apply Finset.sum_congr rfl
      intro i _
      ring
    rw [e1, e2, neg_mul, neg_mul] at keyAneg
    linarith
  constructor
  · rw [hbranch, hbranch']
    show pc_home_win lh la / pc_total lh la < pc_home_win lh' la / pc_total lh' la
    rw [div_lt_div_iff htotpos htotpos', hHW, hHW', htot, htot']
    calc (∑ i in range 8, ppmf lh i * ∑ j in range 8, (if j < i then ppmf la j else 0)) *
          ((∑ i in range 8, ppmf lh' i) * (∑ j in range 8, ppmf la j))
        = ((∑ i in range 8, ppmf lh i * ∑ j in range 8, (if j < i then ppmf la j else 0)) *
            (∑ i in range 8, ppmf lh' i)) * (∑ j in range 8, ppmf la j) := by ring
      _ < ((∑ i in range 8, ppmf lh' i * ∑ j in range 8, (if j < i then ppmf la j else 0)) *
            (∑ i in range 8, ppmf lh i)) * (∑ j in range 8, ppmf la j) :=
          mul_lt_mul_of_pos_right keyH hA
      _ = (∑ i in range 8, ppmf lh' i * ∑ j in range 8, (if j < i then ppmf la j else 0)) *
            ((∑ i in range 8, ppmf lh i) * (∑ j in range 8, ppmf la j)) := by ring
  · rw [hbranch, hbranch']
    show pc_away_win lh' la / pc_total lh' la < pc_away_win lh la / pc_total lh la
    rw [div_lt_div_iff htotpos' htotpos, hAW, hAW', htot, htot']
    calc (∑ i in range 8, ppmf lh' i * ∑ j in range 8, (if i < j then ppmf la j else 0)) *
          ((∑ i in range 8, ppmf lh i) * (∑ j in range 8, ppmf la j))
        = ((∑ i in range 8, ppmf lh' i * ∑ j in range 8, (if i < j then ppmf la j else 0)) *
            (∑ i in range 8, ppmf lh i)) * (∑ j in range 8, ppmf la j) := by ring
      _ < ((∑ i in range 8, ppmf lh i * ∑ j in range 8, (if i < j then ppmf la j else 0)) *
            (∑ i in range 8, ppmf lh' i)) * (∑ j in range 8, ppmf la j) :=
          mul_lt_mul_of_pos_right keyA hA
      _ = (∑ i in range 8, ppmf lh i * ∑ j in range 8, (if i < j then ppmf la j else 0)) *
            ((∑ i in range 8, ppmf lh' i) * (∑ j in range 8, ppmf la j)) := by ring

/-- Witness for `c5_poisson_grid_monotone` at `λ_away = 1`, `λ_home` from 1 to 2. -/
theorem c5_poisson_grid_monotone_witness :
    (calculate_poisson_probabilities 1 1).1 < (calculate_poisson_probabilities 2 1).1 ∧
    (calculate_poisson_probabilities 2 1).2.2 < (calculate_poisson_probabilities 1 1).2.2 :=
  c5_poisson_grid_monotone 1 1 2 (by norm_num) (by norm_num) (by norm_num)
